import Mathlib

/-!
Shallow embedding of the orbital-geometry module of the Asteroid-Tracker
simulation (`src/asteroid_tracker.py`): the configuration constants, the
ellipse-drawing geometry of `draw_orbit`, the position computation of
`calculate_position`, and the per-frame angle update (`speed_factor`).
Floats are idealized as real numbers; Python's `int()` conversion of a
finite float is truncation toward zero, embedded as `truncToZero`.
-/

namespace AsteroidTracker

noncomputable section

/-- Canvas width `WIDTH = 1200` (src/asteroid_tracker.py line 7). -/
def WIDTH : ℤ := 1200

/-- Canvas height `HEIGHT = 800` (src/asteroid_tracker.py line 7). -/
def HEIGHT : ℤ := 800

/-- Canvas center `CENTER = (WIDTH // 2, HEIGHT // 2)` (line 8), i.e. `(600, 400)`. -/
def CENTER : ℤ × ℤ := (WIDTH / 2, HEIGHT / 2)

/-- Scale `SCALE = 150` pixels per astronomical unit (line 9). -/
def SCALE : ℝ := 150

/-- The orbital record fields read by the geometry functions: the
dictionary keys `semi_major_axis` and `eccentricity`. -/
structure OrbitParams where
  semi_major_axis : ℝ
  eccentricity : ℝ

/-- Python's `int()` applied to a finite float: truncation toward zero. -/
def truncToZero (x : ℝ) : ℤ := if 0 ≤ x then ⌊x⌋ else ⌈x⌉

/-- The clamp `a = max(orbit_params['semi_major_axis'], 0.1)` of
`calculate_position` (line 131). -/
def clampA (x : ℝ) : ℝ := max x 0.1

/-- The clamp `e = min(max(orbit_params['eccentricity'], 0), 0.99)` of
`calculate_position` (line 132). -/
def clampE (x : ℝ) : ℝ := min (max x 0) 0.99

/-- The denominator `1 + e * np.cos(angle_rad)` of line 134. -/
def posDenom (e angle_rad : ℝ) : ℝ := 1 + e * Real.cos angle_rad

/-- The radius `r = (a * (1 - e ** 2)) / (1 + e * np.cos(angle_rad))`
of line 134. -/
def posRadius (a e angle_rad : ℝ) : ℝ := a * (1 - e ^ 2) / posDenom e angle_rad

/-- Position function `calculate_position(orbit_params, angle_rad)` (lines 129-139): clamp the
elements, evaluate the polar equation of the ellipse, and map to integer
screen coordinates with `int()` truncation. -/
def calculate_position (orbit_params : OrbitParams) (angle_rad : ℝ) : ℤ × ℤ :=
  let a := clampA orbit_params.semi_major_axis
  let e := clampE orbit_params.eccentricity
  let r := posRadius a e angle_rad
  let x := r * Real.cos angle_rad
  let y := r * Real.sin angle_rad
  (CENTER.1 + truncToZero (x * SCALE), CENTER.2 - truncToZero (y * SCALE))

/-- The screen-space ellipse computed by `draw_orbit`: its drawn center and
the two `axes` radii passed to `cv2.ellipse` (line 124-125). -/
structure EllipseGeometry where
  center_x : ℤ
  center_y : ℤ
  semi_major_px : ℤ
  semi_minor_px : ℤ
  deriving DecidableEq

/-- The geometry part of `draw_orbit(orbit_params, color, img)`
(lines 106-125).  `np.sqrt` of a negative argument yields NaN and the
subsequent `int(b_pixels)` raises `ValueError: cannot convert float NaN to
integer`; that failing path is embedded as `none`. -/
def draw_orbit (orbit_params : OrbitParams) : Option EllipseGeometry :=
  let a_pixels0 := orbit_params.semi_major_axis * SCALE
  let e0 := orbit_params.eccentricity
  let a_pixels := if a_pixels0 ≤ 0 then 1.0 * SCALE else a_pixels0
  let e := if 1.0 ≤ e0 then 0.9 else e0
  if 1 - e ^ 2 < 0 then none
  else
    let b_pixels := a_pixels * Real.sqrt (1 - e ^ 2)
    some { center_x := CENTER.1 + truncToZero (a_pixels * e)
           center_y := CENTER.2
           semi_major_px := truncToZero a_pixels
           semi_minor_px := truncToZero b_pixels }

/-- The per-frame angular increment `speed_factor = 0.01 / max(ast['semi_major_axis'], 0.1)`
(line 192), with the base step `0.01` kept as a parameter (the spec's
`baseAngularStep` configuration constant; the source writes the literal). -/
def speed_factor (base_step semi_major_axis : ℝ) : ℝ :=
  base_step / max semi_major_axis 0.1

/-- The angle update `angles[i] += speed_factor` (line 193), written as the
pure transition the spec calls `advanceAngle`. -/
def advanceAngle (current_angle semi_major_axis base_step : ℝ) : ℝ :=
  current_angle + speed_factor base_step semi_major_axis

/-- The spec's description of `computeEllipseGeometry` (§4.1), amended only
in that the integer conversions truncate toward zero (Python `int()`)
rather than round: sanitize, set `aPx`, `bPx = aPx * sqrt(1 - e^2)`, offset
the drawn center by `aPx * e` along x. -/
def computeEllipseGeometrySpec (orbit_params : OrbitParams) : EllipseGeometry :=
  let a_px := if orbit_params.semi_major_axis * SCALE ≤ 0 then 1.0 * SCALE
              else orbit_params.semi_major_axis * SCALE
  let e := if 1.0 ≤ orbit_params.eccentricity then 0.9
           else orbit_params.eccentricity
  let b_px := a_px * Real.sqrt (1 - e ^ 2)
  { center_x := CENTER.1 + truncToZero (a_px * e)
    center_y := CENTER.2
    semi_major_px := truncToZero a_px
    semi_minor_px := truncToZero b_px }

/-- The spec's description of `computePosition` (§4.1), amended only in
that the two integer conversions truncate toward zero (Python `int()`)
rather than round: clamp `a` to a floor of `0.1`, clamp `e` to
`[0, 0.99]` by min/max, take `r = a(1 - e^2)/(1 + e cos θ)`,
`x = r cos θ`, `y = r sin θ`, and map to screen coordinates with the
vertical axis inverted. -/
def computePositionSpec (orbit_params : OrbitParams) (angle_rad : ℝ) : ℤ × ℤ :=
  let a := max orbit_params.semi_major_axis 0.1
  let e := min (max orbit_params.eccentricity 0) 0.99
  let r := a * (1 - e ^ 2) / (1 + e * Real.cos angle_rad)
  let x := r * Real.cos angle_rad
  let y := r * Real.sin angle_rad
  (CENTER.1 + truncToZero (x * SCALE), CENTER.2 - truncToZero (y * SCALE))

/-! Helper lemmas about the embedded definitions. -/

theorem truncToZero_of_nonneg {x : ℝ} (h : 0 ≤ x) : truncToZero x = ⌊x⌋ :=
  if_pos h

theorem truncToZero_neg (x : ℝ) : truncToZero (-x) = -truncToZero x := by
  unfold truncToZero
  rcases lt_trichotomy x 0 with h | h | h
  · rw [if_pos (by linarith), if_neg (by linarith), Int.floor_neg]
  · simp [h]
  · rw [if_neg (by linarith), if_pos (by linarith), Int.ceil_neg]

theorem truncToZero_zero : truncToZero 0 = 0 := by
  simp [truncToZero]

theorem clampE_nonneg (x : ℝ) : 0 ≤ clampE x :=
  le_min (le_max_right x 0) (by norm_num)

theorem clampE_le (x : ℝ) : clampE x ≤ 0.99 :=
  min_le_right _ _

theorem clampA_ge (x : ℝ) : 0.1 ≤ clampA x :=
  le_max_right x 0.1

/-- Lower bound on the code's denominator: with `0 ≤ e ≤ 0.99` and
`cos` bounded by `[-1, 1]`, `1 + e * cos θ ≥ 1 - e ≥ 0.01`. -/
theorem posDenom_lower {e : ℝ} (angle_rad : ℝ) (he0 : 0 ≤ e) (he1 : e ≤ 0.99) :
    0.01 ≤ posDenom e angle_rad := by
  have hc := Real.neg_one_le_cos angle_rad
  have hmul : e * (-1) ≤ e * Real.cos angle_rad :=
    mul_le_mul_of_nonneg_left hc he0
  unfold posDenom
  nlinarith

/-- Evaluation of `calculate_position` at true anomaly `0`: the polar
equation collapses to `r = a * (1 - e)` and the vertical offset vanishes. -/
theorem calculate_position_zero (p : OrbitParams) :
    calculate_position p 0 =
      (CENTER.1 +
        truncToZero (clampA p.semi_major_axis * (1 - clampE p.eccentricity) * SCALE),
       CENTER.2) := by
  have he0 := clampE_nonneg p.eccentricity
  have hne : (1 : ℝ) + clampE p.eccentricity ≠ 0 := by linarith
  have hx : posRadius (clampA p.semi_major_axis) (clampE p.eccentricity) 0 *
      Real.cos 0 * SCALE =
      clampA p.semi_major_axis * (1 - clampE p.eccentricity) * SCALE := by
    rw [Real.cos_zero]
    unfold posRadius posDenom
    rw [Real.cos_zero]
    field_simp
    ring
  simp only [calculate_position, hx, Real.sin_zero, mul_zero, zero_mul,
    truncToZero_zero, sub_zero]

/-- C1 counterexample: on `{semi_major_axis := 1.46, eccentricity := 0.23}`
at angle `0` the code does not return `(769, 400)`: the claim's expected
x-coordinate `600 + round(168.63) = 769` assumes rounding, while the code's
`int()` truncates `168.63` to `168`. -/
theorem C1_counterexample :
    calculate_position ⟨1.46, 0.23⟩ 0 ≠ (769, 400) := by
  rw [calculate_position_zero]
  have ha : clampA 1.46 = 1.46 := max_eq_left (by norm_num)
  have he : clampE 0.23 = 0.23 := by
    unfold clampE
    rw [max_eq_left (by norm_num), min_eq_left (by norm_num)]
  rw [ha, he, truncToZero_of_nonneg (by norm_num [SCALE])]
  have : ⌊(1.46 * (1 - 0.23) * SCALE : ℝ)⌋ = 168 := by
    norm_num [SCALE, Int.floor_eq_iff]
  rw [this]
  norm_num [CENTER, WIDTH, HEIGHT]

/-- C1 amended: on `{semi_major_axis := 1.46, eccentricity := 0.23}` with
the source's `SCALE = 150` and `CENTER = (600, 400)`, at angle `0`,
`calculate_position` returns `(768, 400) = (600 + int(1.46 * (1 - 0.23) * 150), 400)`:
the `int()` conversion truncates `168.63` to `168` rather than rounding to `169`. -/
theorem C1_theorem :
    calculate_position ⟨1.46, 0.23⟩ 0 = (768, 400) := by
  rw [calculate_position_zero]
  have ha : clampA 1.46 = 1.46 := max_eq_left (by norm_num)
  have he : clampE 0.23 = 0.23 := by
    unfold clampE
    rw [max_eq_left (by norm_num), min_eq_left (by norm_num)]
  rw [ha, he, truncToZero_of_nonneg (by norm_num [SCALE])]
  have : ⌊(1.46 * (1 - 0.23) * SCALE : ℝ)⌋ = 168 := by
    norm_num [SCALE, Int.floor_eq_iff]
  rw [this]
  norm_num [CENTER, WIDTH, HEIGHT]

/-- C5 counterexample: on `{semi_major_axis := 0.9, eccentricity := 0.35}`
at angle `0` the code returns `(687, 400)` (here `x * SCALE = 87.75` and
`int()` truncates to `87`), while the claim's formula
`screenX = canvasCenter.x + round(x * scaleFactor)` gives `600 + 88 = 688`. -/
theorem C5_counterexample :
    calculate_position ⟨0.9, 0.35⟩ 0 = (687, 400) ∧
    (600 : ℤ) + round ((0.9 * (1 - 0.35 ^ 2) / (1 + 0.35) : ℝ) * SCALE) = 688 := by
  constructor
  · rw [calculate_position_zero]
    have ha : clampA 0.9 = 0.9 := max_eq_left (by norm_num)
    have he : clampE 0.35 = 0.35 := by
      unfold clampE
      rw [max_eq_left (by norm_num), min_eq_left (by norm_num)]
    rw [ha, he, truncToZero_of_nonneg (by norm_num [SCALE])]
    have : ⌊(0.9 * (1 - 0.35) * SCALE : ℝ)⌋ = 87 := by
      norm_num [SCALE, Int.floor_eq_iff]
    rw [this]
    norm_num [CENTER, WIDTH, HEIGHT]
  · have : round ((0.9 * (1 - 0.35 ^ 2) / (1 + 0.35) : ℝ) * SCALE) = 88 := by
      norm_num [SCALE, round_eq, Int.floor_eq_iff]
    rw [this]
    norm_num

/-- C5 amended: `calculate_position` agrees everywhere with the spec's
staged description of `computePosition` once the two integer conversions
are read as `int()` truncation toward zero instead of rounding: clamp
`a = max(semiMajorAxisAu, 0.1)` and `e = min(max(eccentricity, 0), 0.99)`,
compute `r = a(1 - e^2)/(1 + e cos θ)`, `x = r cos θ`, `y = r sin θ`, and
return `(center.x + int(x * SCALE), center.y - int(y * SCALE))`. -/
theorem C5_theorem (p : OrbitParams) (angle_rad : ℝ) :
    calculate_position p angle_rad = computePositionSpec p angle_rad := rfl

/-- C7 counterexample: on `{semi_major_axis := 1, eccentricity := 0.55}` at
angle `0` the code returns `(667, 400)` (`a(1-e) * SCALE = 67.5`, truncated
to `67`), while the claim's `canvasCenter.x + round(a(1-e) * scaleFactor)`
gives `600 + 68 = 668`. -/
theorem C7_counterexample :
    calculate_position ⟨1, 0.55⟩ 0 = (667, 400) ∧
    (600 : ℤ) + round ((1 * (1 - 0.55) : ℝ) * SCALE) = 668 := by
  constructor
  · rw [calculate_position_zero]
    have ha : clampA 1 = 1 := max_eq_left (by norm_num)
    have he : clampE 0.55 = 0.55 := by
      unfold clampE
      rw [max_eq_left (by norm_num), min_eq_left (by norm_num)]
    rw [ha, he, truncToZero_of_nonneg (by norm_num [SCALE])]
    have : ⌊(1 * (1 - 0.55) * SCALE : ℝ)⌋ = 67 := by
      norm_num [SCALE, Int.floor_eq_iff]
    rw [this]
    norm_num [CENTER, WIDTH, HEIGHT]
  · have : round ((1 * (1 - 0.55) : ℝ) * SCALE) = 68 := by
      norm_num [SCALE, round_eq, Int.floor_eq_iff]
    rw [this]
    norm_num

/-- C7 amended: at true anomaly `0`, `calculate_position` returns the
periapsis point with `r = a(1-e)` for the clamped `a` and `e`: screen x is
`canvasCenter.x + int(a(1-e) * SCALE)` with `int()` truncation toward zero
(not rounding), and screen y is exactly `canvasCenter.y`. -/
theorem C7_theorem (p : OrbitParams) :
    calculate_position p 0 =
      (CENTER.1 +
        truncToZero (clampA p.semi_major_axis * (1 - clampE p.eccentricity) * SCALE),
       CENTER.2) :=
  calculate_position_zero p

/-- C2 counterexample: on `{semi_major_axis := 1, eccentricity := -2}` the
ellipse path is not total: the unsanitized eccentricity `-2` passes the
`e >= 1.0` check, `np.sqrt(1 - 4)` is NaN, and `int(b_pixels)` raises
`ValueError` — embedded as `draw_orbit` returning `none`. -/
theorem C2_counterexample : draw_orbit ⟨1, -2⟩ = none := by
  unfold draw_orbit
  norm_num [SCALE]

/-- C2 amended: `draw_orbit` succeeds exactly when the eccentricity is at
least `-1` (the sanitization only caps `e ≥ 1`, so `e < -1` reaches
`np.sqrt` of a negative and crashes), while `calculate_position` is total:
its clamped denominator `1 + e * cos θ` is never zero for any real input. -/
theorem C2_theorem :
    (∀ p : OrbitParams, (draw_orbit p).isSome = true ↔ -1 ≤ p.eccentricity) ∧
    (∀ (p : OrbitParams) (angle_rad : ℝ),
        posDenom (clampE p.eccentricity) angle_rad ≠ 0) := by
  constructor
  · intro p
    simp only [draw_orbit]
    by_cases h1 : (1.0 : ℝ) ≤ p.eccentricity
    · rw [if_pos h1, if_neg (by norm_num)]
      simp only [Option.isSome_some, true_iff]
      linarith
    · rw [if_neg h1]
      push_neg at h1
      by_cases hg : 1 - p.eccentricity ^ 2 < 0
      · rw [if_pos hg]
        simp only [Option.isSome_none, Bool.false_eq_true, false_iff, not_le]
        by_contra hc
        push_neg at hc
        nlinarith [mul_nonneg (by linarith : (0:ℝ) ≤ 1 - p.eccentricity)
          (by linarith : (0:ℝ) ≤ 1 + p.eccentricity)]
      · rw [if_neg hg]
        push_neg at hg
        simp only [Option.isSome_some, true_iff]
        nlinarith [sq_nonneg (p.eccentricity + 1)]
  · intro p angle_rad
    have := posDenom_lower angle_rad (clampE_nonneg p.eccentricity)
      (clampE_le p.eccentricity)
    intro hzero
    rw [hzero] at this
    norm_num at this

/-- C3 counterexample: on `{semi_major_axis := 0.013, eccentricity := 0}`
(sanitized values are unchanged, `aPx = bPx = 1.95`) the code returns
`semi_major_px = semi_minor_px = int(1.95) = 1`, not the claim's
`round(aPx) = round(1.95) = 2`. -/
theorem C3_counterexample :
    draw_orbit ⟨0.013, 0⟩ = some ⟨600, 400, 1, 1⟩ ∧
    round ((0.013 : ℝ) * SCALE) = 2 := by
  constructor
  · unfold draw_orbit
    norm_num [SCALE, CENTER, WIDTH, HEIGHT, truncToZero, Int.floor_eq_iff]
  · norm_num [SCALE, round_eq, Int.floor_eq_iff]

/-- C3 amended: for every input whose eccentricity is at least `-1` (so the
square root is defined), `draw_orbit` computes exactly the spec's staged
geometry — `aPx = a * SCALE` post-substitution, `bPx = aPx * sqrt(1 - e^2)`,
drawn center `(canvasCenter.x + aPx * e, canvasCenter.y)` — with the three
integer conversions truncating toward zero (Python `int()`), not rounding. -/
theorem C3_theorem (p : OrbitParams) (h : -1 ≤ p.eccentricity) :
    draw_orbit p = some (computeEllipseGeometrySpec p) := by
  have hguard :
      ¬ (1 - (if (1.0 : ℝ) ≤ p.eccentricity then 0.9 else p.eccentricity) ^ 2 < 0) := by
    by_cases h1 : (1.0 : ℝ) ≤ p.eccentricity
    · rw [if_pos h1]; norm_num
    · rw [if_neg h1]
      push_neg at h1 ⊢
      nlinarith
  simp only [draw_orbit, computeEllipseGeometrySpec]
  rw [if_neg hguard]

/-- C3 witness: the amended statement applied at the concrete input
`{semi_major_axis := 1.46, eccentricity := 0.23}`. -/
theorem C3_witness :
    draw_orbit ⟨1.46, 0.23⟩ = some (computeEllipseGeometrySpec ⟨1.46, 0.23⟩) :=
  C3_theorem ⟨1.46, 0.23⟩ (by norm_num)

/-- C4: the ellipse path's sanitization: a non-positive scaled axis is
replaced by `1.0 * SCALE` (so the orbit draws as if `a = 1.0` AU), an
eccentricity `≥ 1.0` is replaced by `0.9`, and the degenerate input
`{semi_major_axis := 0, eccentricity := 1.0}` yields the same valid
geometry as `{semi_major_axis := 1.0, eccentricity := 0.9}` without
crashing. -/
theorem C4_theorem :
    (∀ p : OrbitParams, p.semi_major_axis * SCALE ≤ 0 →
        draw_orbit p = draw_orbit ⟨1.0, p.eccentricity⟩) ∧
    (∀ p : OrbitParams, 1.0 ≤ p.eccentricity →
        draw_orbit p = draw_orbit ⟨p.semi_major_axis, 0.9⟩) ∧
    draw_orbit ⟨0, 1.0⟩ = draw_orbit ⟨1.0, 0.9⟩ ∧
    (draw_orbit ⟨0, 1.0⟩).isSome = true := by
  refine ⟨?_, ?_, ?_, ?_⟩
  · intro p h
    simp only [draw_orbit]
    rw [if_pos h]
    norm_num [SCALE]
  · intro p h
    simp only [draw_orbit]
    rw [if_pos h]
    norm_num
  · simp only [draw_orbit]
    norm_num [SCALE]
  · simp only [draw_orbit]
    norm_num [SCALE]

/-- C6: for every `e ∈ [0, 0.99]`, `a > 0` and every real angle, the
denominator `1 + e * cos θ` used by `calculate_position` is at least
`0.01`, hence nonzero — in the real-number embedding the returned pair is
therefore always a well-defined (finite) value. -/
theorem C6_theorem (a e angle_rad : ℝ) (he0 : 0 ≤ e) (he1 : e ≤ 0.99)
    (_ha : 0 < a) :
    0.01 ≤ posDenom e angle_rad ∧ posDenom e angle_rad ≠ 0 := by
  have h := posDenom_lower angle_rad he0 he1
  refine ⟨h, ?_⟩
  intro hz
  rw [hz] at h
  norm_num at h

/-- C6 witness: the bound at the concrete input `a = 1`, `e = 0.5`,
angle `0`. -/
theorem C6_witness : 0.01 ≤ posDenom 0.5 0 ∧ posDenom 0.5 0 ≠ 0 :=
  C6_theorem 1 0.5 0 (by norm_num) (by norm_num) (by norm_num)

/-- C8: the angle update returns `currentAngle + step / max(a, 0.1)`; for a
positive step the new angle strictly exceeds the old one; for fixed angle
and step the increment strictly shrinks as `a` grows above the `0.1`
floor; and in particular `advanceAngle 0 1 0.01 > advanceAngle 0 10 0.01`. -/
theorem C8_theorem :
    (∀ current_angle a step : ℝ,
        advanceAngle current_angle a step = current_angle + step / max a 0.1) ∧
    (∀ current_angle a step : ℝ, 0 < step →
        current_angle < advanceAngle current_angle a step) ∧
    (∀ current_angle step a1 a2 : ℝ, 0 < step → 0.1 ≤ a1 → a1 < a2 →
        advanceAngle current_angle a2 step < advanceAngle current_angle a1 step) ∧
    advanceAngle 0 10 0.01 < advanceAngle 0 1 0.01 := by
  refine ⟨fun _ _ _ => rfl, ?_, ?_, ?_⟩
  · intro current_angle a step hstep
    unfold advanceAngle speed_factor
    have hmax : (0 : ℝ) < max a 0.1 :=
      lt_of_lt_of_le (by norm_num) (le_max_right a 0.1)
    have := div_pos hstep hmax
    linarith
  · intro current_angle step a1 a2 hstep h1 h12
    unfold advanceAngle speed_factor
    rw [max_eq_left h1, max_eq_left (by linarith : (0.1 : ℝ) ≤ a2)]
    have h1pos : (0 : ℝ) < a1 := by linarith
    have := div_lt_div_of_pos_left hstep h1pos h12
    linarith
  · unfold advanceAngle speed_factor
    rw [max_eq_left (by norm_num : (0.1 : ℝ) ≤ 10),
      max_eq_left (by norm_num : (0.1 : ℝ) ≤ 1)]
    norm_num

/-- C9: `calculate_position` is symmetric about the horizontal axis
through the canvas center: negating the angle keeps the screen x and
exactly negates the screen y offset from `CENTER.2`, because `cos` is even,
`sin` is odd, and `int()` truncation toward zero is an odd function. -/
theorem C9_theorem (p : OrbitParams) (angle_rad : ℝ) :
    (calculate_position p (-angle_rad)).1 = (calculate_position p angle_rad).1 ∧
    (calculate_position p (-angle_rad)).2 - CENTER.2 =
      -((calculate_position p angle_rad).2 - CENTER.2) := by
  have hr : posRadius (clampA p.semi_major_axis) (clampE p.eccentricity)
      (-angle_rad) =
      posRadius (clampA p.semi_major_axis) (clampE p.eccentricity) angle_rad := by
    unfold posRadius posDenom
    rw [Real.cos_neg]
  constructor
  · simp only [calculate_position, hr, Real.cos_neg]
  · simp only [calculate_position, hr, Real.sin_neg, mul_neg, neg_mul,
      truncToZero_neg]
    ring

/-- C10: with the clamped `a ≥ 0.1` and `e ∈ [0, 0.99]`, the radius
computed inside `calculate_position` is strictly positive and lies between
the periapsis distance `a(1-e)` and the apoapsis distance `a(1+e)`. -/
theorem C10_theorem (p : OrbitParams) (angle_rad : ℝ) :
    0 < posRadius (clampA p.semi_major_axis) (clampE p.eccentricity) angle_rad ∧
    clampA p.semi_major_axis * (1 - clampE p.eccentricity) ≤
      posRadius (clampA p.semi_major_axis) (clampE p.eccentricity) angle_rad ∧
    posRadius (clampA p.semi_major_axis) (clampE p.eccentricity) angle_rad ≤
      clampA p.semi_major_axis * (1 + clampE p.eccentricity) := by
  set a := clampA p.semi_major_axis
  set e := clampE p.eccentricity
  have ha : (0.1 : ℝ) ≤ a := clampA_ge _
  have he0 : 0 ≤ e := clampE_nonneg _
  have he1 : e ≤ 0.99 := clampE_le _
  have hc1 : Real.cos angle_rad ≤ 1 := Real.cos_le_one _
  have hc2 : -1 ≤ Real.cos angle_rad := Real.neg_one_le_cos _
  have hd : 0.01 ≤ posDenom e angle_rad := posDenom_lower _ he0 he1
  have hdpos : 0 < posDenom e angle_rad := by linarith
  have hdub : posDenom e angle_rad ≤ 1 + e := by
    unfold posDenom
    nlinarith [mul_le_mul_of_nonneg_left hc1 he0]
  have hdlb : 1 - e ≤ posDenom e angle_rad := by
    unfold posDenom
    nlinarith [mul_le_mul_of_nonneg_left hc2 he0]
  refine ⟨?_, ?_, ?_⟩
  · unfold posRadius
    have h2 : e ^ 2 ≤ 0.9801 := by nlinarith
    exact div_pos (mul_pos (by linarith) (by linarith)) hdpos
  · unfold posRadius
    rw [le_div_iff₀ hdpos]
    have hae : (0 : ℝ) ≤ a * (1 - e) := mul_nonneg (by linarith) (by linarith)
    nlinarith [mul_le_mul_of_nonneg_left hdub hae]
  · unfold posRadius
    rw [div_le_iff₀ hdpos]
    have hae : (0 : ℝ) ≤ a * (1 + e) := mul_nonneg (by linarith) (by linarith)
    nlinarith [mul_le_mul_of_nonneg_left hdlb hae]

end

end AsteroidTracker
